import Mathlib

/-!
Shallow embedding of the SmartEnergyMonitor backend (src/backend/server.py)
and verification of the specification claims about its energy-accounting and
occupancy-automation core.

Timestamps are modelled as rational numbers of seconds (UTC); all numeric
quantities (watts, watt-hours, minutes) are rationals, mirroring the exact
arithmetic the Python code performs on its values.
-/

namespace SmartEnergy

/-- Timestamps in seconds since an arbitrary epoch. -/
abbrev Time := ℚ

/-- `Room` model (server.py, class Room). -/
structure Room where
  id : Nat
  name : String
  has_camera : Bool
  is_occupied : Bool
  last_seen : Option Time
deriving Repr, DecidableEq

/-- `Device` model (server.py, class Device). -/
structure Device where
  id : Nat
  room_id : Nat
  name : String
  power_rating : ℚ
  device_type : String
  is_on : Bool
  last_state_change : Time
deriving Repr, DecidableEq

/-- `HourlyPowerLog` model (server.py, class HourlyPowerLog). -/
structure HourlyPowerLog where
  room_id : Nat
  device_id : Nat
  device_name : String
  power_rating : ℚ
  energy_consumed_wh : ℚ
  hour_start : Time
  hour_end : Time
  was_on : Bool
  minutes_on : ℚ
deriving Repr, DecidableEq

/-- `EnergySaving` model (server.py, class EnergySaving). -/
structure EnergySaving where
  room_id : Nat
  energy_saved : ℚ
  devices_affected : List Nat
  timestamp : Time
deriving Repr, DecidableEq

/-- The mutable store state relevant to the core: rooms, devices and the
savings ledger (MongoDB collections `rooms`, `devices`, `energy_savings`). -/
@[ext]
structure SystemState where
  rooms : List Room
  devices : List Device
  energy_savings : List EnergySaving
deriving Repr, DecidableEq

/-- Errors surfaced to callers (HTTPException 404 in server.py). -/
inductive ApiError where
  | notFound
deriving Repr, DecidableEq

/-- Minutes-on computation of `log_hourly_consumption` (server.py lines
199-215), branch for branch.  A device's `last_state_change` is always
present (the Device model defaults it at creation), so the Python
`last_state_change and ...` truthiness guard is always satisfied. -/
def minutesOn (is_on : Bool) (lsc hs he : Time) : ℚ :=
  if is_on then
    if hs < lsc then (he - lsc) / 60
    else 60
  else
    if hs < lsc ∧ lsc < he then (lsc - hs) / 60
    else 0

/-- Modelled from the spec: the four-rule precedence of §4.3 for
`minutesOn`, written exactly as the spec words it, to be compared with the
source-derived `minutesOn`. -/
def specMinutesOn (is_on : Bool) (lsc hs he : Time) : ℚ :=
  if is_on = true ∧ lsc > hs then (he - lsc) / 60
  else if is_on = true ∧ lsc ≤ hs then 60
  else if is_on = false ∧ (hs < lsc ∧ lsc < he) then (lsc - hs) / 60
  else 0

/-- One `HourlyPowerLog` as built by `log_hourly_consumption`
(server.py lines 217-232). -/
def mkHourlyLog (d : Device) (hs he : Time) : HourlyPowerLog :=
  let m := minutesOn d.is_on d.last_state_change hs he
  { room_id := d.room_id
    device_id := d.id
    device_name := d.name
    power_rating := d.power_rating
    energy_consumed_wh := d.power_rating * m / 60
    hour_start := hs
    hour_end := he
    was_on := decide (0 < m)
    minutes_on := m }

/-- The per-device loop of `log_hourly_consumption` (server.py lines
191-238) with its function-level `try/except`: each device is paired with
a flag saying whether its `insert_one` succeeds; a raised persistence
error terminates the whole loop, keeping only the records inserted before
it.  Returns the list of records actually inserted. -/
def logHourlyBatch (hs he : Time) : List (Device × Bool) → List HourlyPowerLog
  | [] => []
  | (d, ok) :: rest =>
    if ok then mkHourlyLog d hs he :: logHourlyBatch hs he rest
    else []

/-- A sequence of hourly integrator runs.  Each run fires at a top-of-hour
boundary, identified by its hour index `h`; `log_hourly_consumption`
(server.py lines 184-186) then uses the window
`[ (h-1)*3600, h*3600 )` and writes one record per device. -/
def runsRecords (devices : List Device) : List ℤ → List HourlyPowerLog
  | [] => []
  | h :: hs =>
    devices.map (fun d => mkHourlyLog d (((h : ℚ) - 1) * 3600) ((h : ℚ) * 3600))
      ++ runsRecords devices hs

/-- The room update written by `update_occupancy` (server.py lines 500-503
and 547): `is_occupied` from the request, `last_seen` from the request
timestamp. -/
def roomSetOcc (rid : Nat) (occ : Bool) (ts : Time) (r : Room) : Room :=
  if r.id = rid then { r with is_occupied := occ, last_seen := some ts } else r

/-- The effect of one
`update_many({room_id: rid, is_on: true}, {is_on: false, last_state_change: now})`
on a single device document (server.py lines 519-525). -/
def deviceOffIfOn (rid : Nat) (now : Time) (d : Device) : Device :=
  if d.room_id = rid ∧ d.is_on = true then
    { d with is_on := false, last_state_change := now }
  else d

/-- One `update_many` call over the whole device collection. -/
def turnOffOnDevicesInRoom (rid : Nat) (now : Time) (ds : List Device) : List Device :=
  ds.map (deviceOffIfOn rid now)

/-- The query `db.devices.find({room_id: rid, is_on: true})`
(server.py line 507). -/
def devicesOnInRoom (rid : Nat) (ds : List Device) : List Device :=
  ds.filter (fun d => d.room_id == rid && d.is_on)

/-- The `POST /occupancy/update` handler `update_occupancy`
(server.py lines 494-548).  `ts` is the request timestamp (stored into the
room's `last_seen`), `now` is the server wall-clock time at which device
updates and the savings record are stamped.  On the unoccupied branch the
handler fetches the on-devices of the room, then runs one `update_many`
(turning off every on-device of the room) per fetched device, accumulates
`power_rating / 1000` per fetched device, and appends one `EnergySaving`
when the accumulated estimate is positive. -/
def update_occupancy (st : SystemState) (rid : Nat) (occ : Bool) (ts now : Time) :
    Except ApiError SystemState :=
  match st.rooms.find? (fun r => r.id == rid) with
  | none => Except.error ApiError.notFound
  | some _ =>
    if occ then
      Except.ok
        { rooms := st.rooms.map (roomSetOcc rid occ ts)
          devices := st.devices.map (fun d =>
            if d.room_id = rid then { d with is_on := true, last_state_change := now }
            else d)
          energy_savings := st.energy_savings }
    else
      let devices_on := devicesOnInRoom rid st.devices
      let energy_saved : ℚ := (devices_on.map (fun d => d.power_rating / 1000)).sum
      let affected : List Nat := devices_on.map Device.id
      let newDevices :=
        devices_on.foldl (fun ds _ => turnOffOnDevicesInRoom rid now ds) st.devices
      let newSavings : List EnergySaving :=
        if 0 < energy_saved then
          st.energy_savings ++
            [{ room_id := rid, energy_saved := energy_saved,
               devices_affected := affected, timestamp := now }]
        else st.energy_savings
      Except.ok
        { rooms := st.rooms.map (roomSetOcc rid occ ts)
          devices := newDevices
          energy_savings := newSavings }

/-- `db.devices.update_one({id: did}, {is_on: b, last_state_change: now})`:
updates the first matching document only; a missing id matches nothing and
the collection is unchanged (server.py lines 479-485). -/
def updateFirst (did : Nat) (b : Bool) (now : Time) : List Device → List Device
  | [] => []
  | d :: rest =>
    if d.id = did then { d with is_on := b, last_state_change := now } :: rest
    else d :: updateFirst did b now rest

/-- The `PUT /devices/{device_id}/state` handler `update_device_state`
(server.py lines 472-486): issues the `update_one` and unconditionally
returns a success message; it never raises `NotFound`. -/
def update_device_state (devices : List Device) (did : Nat) (b : Bool) (now : Time) :
    Except ApiError (List Device × String) :=
  Except.ok (updateFirst did b now devices, "Device state updated")

/-- One device line in a room breakdown (server.py lines 631-635). -/
structure DeviceEntry where
  device_name : String
  consumption_wh : ℚ
  minutes_on : ℚ
deriving Repr, DecidableEq

/-- Per-room accumulator of the hour grouping (server.py lines 623-627). -/
structure RoomData where
  room_name : String
  consumption_wh : ℚ
  devices : List DeviceEntry
deriving Repr, DecidableEq

/-- Per-hour accumulator of the grouping (server.py lines 612-616).  The
Python dicts are insertion-ordered, modelled as association lists. -/
structure HourData where
  total_wh : ℚ
  rooms : List (Nat × RoomData)
deriving Repr, DecidableEq

/-- One formatted room entry of the response (server.py lines 640-649). -/
structure RoomBreakdown where
  room_id : Nat
  room_name : String
  consumption_wh : ℚ
  consumption_kwh : ℚ
  devices : List DeviceEntry
deriving Repr, DecidableEq

/-- One formatted hour entry of the response (server.py lines 651-656). -/
structure HourEntry where
  hour : Time
  total_consumption_wh : ℚ
  total_consumption_kwh : ℚ
  room_breakdown : List RoomBreakdown
deriving Repr, DecidableEq

/-- The whole `GET /consumption/hourly` response (server.py lines 658-663). -/
structure ConsumptionResponse where
  period_start : Time
  period_end : Time
  hourly_data : List HourEntry
  total_consumption_kwh : ℚ
deriving Repr, DecidableEq

/-- Insertion-ordered dictionary update: the Python pattern of creating the
key with a default value when absent (appending it at the end, as dicts
preserve insertion order) and then mutating it in place with `f`. -/
def updateAList {κ α : Type} [DecidableEq κ] (k : κ) (init : α) (f : α → α) :
    List (κ × α) → List (κ × α)
  | [] => [(k, f init)]
  | p :: rest =>
    if p.1 = k then (p.1, f p.2) :: rest
    else p :: updateAList k init f rest

/-- Room-name lookup with the "Unknown Room" fallback
(server.py lines 621-622). -/
def roomNameOf (rooms : List Room) (rid : Nat) : String :=
  match rooms.find? (fun r => r.id == rid) with
  | some r => r.name
  | none => "Unknown Room"

/-- Folding one log into an hour accumulator (server.py lines 618-635):
the hour total and the log's room total grow by the log's energy, and the
log's device line is appended to that room. -/
def addLogToHour (rooms : List Room) (log : HourlyPowerLog) (hd : HourData) : HourData :=
  { total_wh := hd.total_wh + log.energy_consumed_wh
    rooms :=
      updateAList log.room_id
        { room_name := roomNameOf rooms log.room_id, consumption_wh := 0, devices := [] }
        (fun rd =>
          { rd with
            consumption_wh := rd.consumption_wh + log.energy_consumed_wh
            devices := rd.devices ++
              [{ device_name := log.device_name
                 consumption_wh := log.energy_consumed_wh
                 minutes_on := log.minutes_on }] })
        hd.rooms }

/-- One iteration of the grouping loop `for log in logs`
(server.py lines 610-635). -/
def processLog (rooms : List Room) (acc : List (Time × HourData)) (log : HourlyPowerLog) :
    List (Time × HourData) :=
  updateAList log.hour_start { total_wh := 0, rooms := [] } (addLogToHour rooms log) acc

/-- Sorted insertion by hour key, embedding Python's
`sorted(hourly_data.items())` (dict keys are ISO strings of a fixed format,
whose lexicographic order agrees with the order of the timestamps they
denote). -/
def insertByKey (p : Time × HourData) : List (Time × HourData) → List (Time × HourData)
  | [] => [p]
  | q :: rest =>
    if p.1 ≤ q.1 then p :: q :: rest
    else q :: insertByKey p rest

/-- Insertion sort by hour key. -/
def sortByKey (l : List (Time × HourData)) : List (Time × HourData) :=
  l.foldr insertByKey []

/-- Formatting of one room of an hour (server.py lines 640-649). -/
def mkRoomBreakdown (p : Nat × RoomData) : RoomBreakdown :=
  { room_id := p.1
    room_name := p.2.room_name
    consumption_wh := p.2.consumption_wh
    consumption_kwh := p.2.consumption_wh / 1000
    devices := p.2.devices }

/-- Formatting of one hour entry (server.py lines 651-656). -/
def mkHourEntry (p : Time × HourData) : HourEntry :=
  { hour := p.1
    total_consumption_wh := p.2.total_wh
    total_consumption_kwh := p.2.total_wh / 1000
    room_breakdown := p.2.rooms.map mkRoomBreakdown }

/-- The `GET /consumption/hourly` handler `get_hourly_consumption`
(server.py lines 583-663): filter the logs to the window, group by hour
then by room, sort ascending by hour key, format, and sum the hourly
kWh totals at top level. -/
def get_hourly_consumption (rooms : List Room) (logs : List HourlyPowerLog)
    (start_time end_time : Time) : ConsumptionResponse :=
  let filtered := logs.filter (fun l => start_time ≤ l.hour_start && l.hour_start < end_time)
  let hourly_data := filtered.foldl (processLog rooms) []
  let result := (sortByKey hourly_data).map mkHourEntry
  { period_start := start_time
    period_end := end_time
    hourly_data := result
    total_consumption_kwh := (result.map HourEntry.total_consumption_kwh).sum }

/-! Concrete states and devices used as counterexamples and witnesses. -/

/-- A room with three on-devices: light A, fan B, light C (the exact
scenario of the spec's first-light claim). -/
def exTripleState : SystemState :=
  { rooms := [{ id := 1, name := "Living", has_camera := false,
                is_occupied := true, last_seen := none }]
    devices :=
      [{ id := 1, room_id := 1, name := "Light A", power_rating := 60,
         device_type := "light", is_on := true, last_state_change := 0 },
       { id := 2, room_id := 1, name := "Fan B", power_rating := 40,
         device_type := "fan", is_on := true, last_state_change := 0 },
       { id := 3, room_id := 1, name := "Light C", power_rating := 50,
         device_type := "light", is_on := true, last_state_change := 0 }]
    energy_savings := [] }

/-- The state `update_occupancy exTripleState 1 false 500 500` produces:
all three devices off, one savings record of `150/1000` kWh. -/
def exTripleResult : SystemState :=
  { rooms := [{ id := 1, name := "Living", has_camera := false,
                is_occupied := false, last_seen := some 500 }]
    devices :=
      [{ id := 1, room_id := 1, name := "Light A", power_rating := 60,
         device_type := "light", is_on := false, last_state_change := 500 },
       { id := 2, room_id := 1, name := "Fan B", power_rating := 40,
         device_type := "fan", is_on := false, last_state_change := 500 },
       { id := 3, room_id := 1, name := "Light C", power_rating := 50,
         device_type := "light", is_on := false, last_state_change := 500 }]
    energy_savings :=
      [{ room_id := 1, energy_saved := 3/20, devices_affected := [1, 2, 3],
         timestamp := 500 }] }

/-- 100 W lamp switched on at 10:15 (36900 s). -/
def exLamp : Device :=
  { id := 7, room_id := 1, name := "Lamp", power_rating := 100,
    device_type := "light", is_on := true, last_state_change := 36900 }

/-- 100 W device whose last state change (to on) lands after the hour
boundary 39600 s: the race the hourly integrator does not guard against. -/
def exHeater : Device :=
  { id := 9, room_id := 1, name := "Heater", power_rating := 100,
    device_type := "other", is_on := true, last_state_change := 39660 }

/-- A device (last state change 100 s) used against the stale-write claim. -/
def exStale : Device :=
  { id := 1, room_id := 1, name := "Fan", power_rating := 60,
    device_type := "fan", is_on := true, last_state_change := 100 }

/-- A one-room one-device state used by savings-record witnesses. -/
def exSingleState : SystemState :=
  { rooms := [{ id := 1, name := "Study", has_camera := false,
                is_occupied := true, last_seen := none }]
    devices :=
      [{ id := 1, room_id := 1, name := "Desk light", power_rating := 60,
         device_type := "light", is_on := true, last_state_change := 0 }]
    energy_savings := [] }

/-- The state `update_occupancy exSingleState 1 false 500 500` produces. -/
def exSingleResult : SystemState :=
  { rooms := [{ id := 1, name := "Study", has_camera := false,
                is_occupied := false, last_seen := some 500 }]
    devices :=
      [{ id := 1, room_id := 1, name := "Desk light", power_rating := 60,
         device_type := "light", is_on := false, last_state_change := 500 }]
    energy_savings :=
      [{ room_id := 1, energy_saved := 3/50, devices_affected := [1],
         timestamp := 500 }] }

/-- A room accumulator is internally consistent when its total is the sum
of its device lines. -/
def RoomData.consistent (rd : RoomData) : Prop :=
  rd.consumption_wh = (rd.devices.map DeviceEntry.consumption_wh).sum

/-- An hour accumulator is internally consistent when its total is the sum
of its room totals and every room accumulator is consistent. -/
def HourData.consistent (hd : HourData) : Prop :=
  hd.total_wh = (hd.rooms.map (fun q => q.2.consumption_wh)).sum
  ∧ ∀ q ∈ hd.rooms, RoomData.consistent q.2

/-! # Theorems -/

/-! ## Hourly integrator: minutes-on rules (C2, C3) -/

/-- C2: the code's minutes-on computation follows exactly the spec's
four-rule precedence, and the two concrete scenarios hold: a 100 W device
switched on at 10:15 gives 45 minutes and 75.0 Wh for the window
[10:00, 11:00), and the same device switched off at 10:50 before the run
gives 50 minutes by rule 3, not 35. -/
theorem C2_minutes_precedence :
    (∀ (b : Bool) (lsc hs he : Time),
      minutesOn b lsc hs he = specMinutesOn b lsc hs he)
    ∧ minutesOn true 36900 36000 39600 = 45
    ∧ (mkHourlyLog exLamp 36000 39600).energy_consumed_wh = 75
    ∧ minutesOn false 39000 36000 39600 = 50 := by
  refine ⟨fun b lsc hs he => ?_, by norm_num [minutesOn],
    by norm_num [mkHourlyLog, exLamp, minutesOn], by norm_num [minutesOn]⟩
  cases b with
  | true =>
    by_cases h : hs < lsc
    · simp [minutesOn, specMinutesOn, h]
    · simp [minutesOn, specMinutesOn, h, le_of_not_lt h]
  | false =>
    by_cases h : hs < lsc ∧ lsc < he
    · simp [minutesOn, specMinutesOn, h]
    · simp [minutesOn, specMinutesOn, h]

/-- C3 (code bug): a device that is on whose `last_state_change` lies after
`hour_end` (reachable when a state change lands between the hour boundary
and the instant the cron job runs) yields a negative `minutes_on` and a
negative `energy_consumed_wh`, violating the spec invariant
0 ≤ minutesOn ≤ 60.  At `last_state_change` = 39660 s (one minute past the
boundary 39600) over window [36000, 39600): minutes_on = -1. -/
theorem C3_negative_minutes :
    minutesOn true 39660 36000 39600 = -1
    ∧ (mkHourlyLog exHeater 36000 39600).minutes_on = -1
    ∧ (mkHourlyLog exHeater 36000 39600).energy_consumed_wh = -5/3
    ∧ ¬ (0 ≤ (mkHourlyLog exHeater 36000 39600).minutes_on) := by
  refine ⟨by norm_num [minutesOn], by norm_num [mkHourlyLog, exHeater, minutesOn],
    by norm_num [mkHourlyLog, exHeater, minutesOn],
    by norm_num [mkHourlyLog, exHeater, minutesOn]⟩

/-! ## Hourly integrator: partial failure (C7) -/

/-- C7 counterexample: with two devices where the first device's insert
fails, the function-level `try/except` of `log_hourly_consumption` aborts
the loop, so the second (remaining) device gets no record either — the
batch output is empty, contradicting the claim that records are still
written for every remaining device. -/
theorem C7_counterexample :
    logHourlyBatch 0 3600
      [({ id := 1, room_id := 1, name := "Light A", power_rating := 60,
          device_type := "light", is_on := true, last_state_change := 0 }, false),
       ({ id := 2, room_id := 1, name := "Fan B", power_rating := 40,
          device_type := "fan", is_on := true, last_state_change := 0 }, true)]
      = [] := by
  decide

/-- C7 amended: a per-device failure during the hourly integration run
aborts the remainder of the batch: exactly the records of the devices
processed successfully before the failing one are written; the failing
device and every later device get no record. -/
theorem C7_failure_aborts_batch (hs he : Time) (pre : List Device) (d : Device)
    (post : List (Device × Bool)) :
    logHourlyBatch hs he (pre.map (fun x => (x, true)) ++ (d, false) :: post)
      = pre.map (fun x => mkHourlyLog x hs he) := by
  induction pre with
  | nil => rfl
  | cons x xs ih => simpa [logHourlyBatch] using ih

/-! ## Occupancy controller helpers -/

/-- After one `update_many` turning off the on-devices of the room, every
device of the room is off. -/
theorem mem_turnOff_room_off {rid : Nat} {now : Time} {ds : List Device} :
    ∀ d ∈ turnOffOnDevicesInRoom rid now ds, d.room_id = rid → d.is_on = false := by
  intro d hd hr
  rcases List.mem_map.1 hd with ⟨d0, _, rfl⟩
  by_cases hc : d0.room_id = rid ∧ d0.is_on = true
  · simp [deviceOffIfOn, hc]
  · simp only [deviceOffIfOn, if_neg hc] at hr ⊢
    rcases Bool.eq_false_or_eq_true d0.is_on with hb | hb
    · exact absurd ⟨hr, hb⟩ hc
    · exact hb

/-- `deviceOffIfOn` is idempotent. -/
theorem deviceOffIfOn_idem (rid : Nat) (now : Time) (d : Device) :
    deviceOffIfOn rid now (deviceOffIfOn rid now d) = deviceOffIfOn rid now d := by
  by_cases hc : d.room_id = rid ∧ d.is_on = true
  · simp [deviceOffIfOn, hc]
  · simp [deviceOffIfOn, hc]

/-- The `update_many` device-off pass is idempotent. -/
theorem turnOff_idem (rid : Nat) (now : Time) (ds : List Device) :
    turnOffOnDevicesInRoom rid now (turnOffOnDevicesInRoom rid now ds)
      = turnOffOnDevicesInRoom rid now ds := by
  unfold turnOffOnDevicesInRoom
  rw [List.map_map]
  have : deviceOffIfOn rid now ∘ deviceOffIfOn rid now = deviceOffIfOn rid now :=
    funext (deviceOffIfOn_idem rid now)
  rw [this]

/-- Folding a constant idempotent step over a nonempty list applies it
once. -/
theorem foldl_const_apply {α β : Type} (f : β → β) (hf : ∀ b, f (f b) = f b) :
    ∀ (l : List α) (b : β), l ≠ [] → l.foldl (fun acc _ => f acc) b = f b := by
  intro l
  induction l with
  | nil => intro b h; exact absurd rfl h
  | cons x xs ih =>
    intro b _
    by_cases hxs : xs = []
    · subst hxs; rfl
    · rw [List.foldl_cons, ih (f b) hxs, hf]

/-- The "devices currently on" query is empty exactly when every device of
the room is off. -/
theorem devicesOnInRoom_eq_nil_iff {rid : Nat} {ds : List Device} :
    devicesOnInRoom rid ds = [] ↔ ∀ d ∈ ds, d.room_id = rid → d.is_on = false := by
  unfold devicesOnInRoom
  rw [List.filter_eq_nil_iff]
  constructor
  · intro h d hd hr
    have := h d hd
    simp only [Bool.and_eq_true, beq_iff_eq, not_and] at this
    rcases Bool.eq_false_or_eq_true d.is_on with hb | hb
    · exact absurd hb (this hr)
    · exact hb
  · intro h d hd
    simp only [Bool.and_eq_true, beq_iff_eq, not_and]
    intro hr
    rw [h d hd hr]
    exact Bool.false_ne_true

/-- Characterization of the unoccupied branch of `update_occupancy`. -/
theorem update_occupancy_false_spec (st : SystemState) (rid : Nat) (ts now : Time)
    (st' : SystemState) (h : update_occupancy st rid false ts now = Except.ok st') :
    st'.rooms = st.rooms.map (roomSetOcc rid false ts)
    ∧ st'.devices =
        (devicesOnInRoom rid st.devices).foldl
          (fun ds _ => turnOffOnDevicesInRoom rid now ds) st.devices
    ∧ st'.energy_savings =
        (if 0 < ((devicesOnInRoom rid st.devices).map (fun d => d.power_rating / 1000)).sum
         then st.energy_savings ++
           [{ room_id := rid,
              energy_saved :=
                ((devicesOnInRoom rid st.devices).map (fun d => d.power_rating / 1000)).sum,
              devices_affected := (devicesOnInRoom rid st.devices).map Device.id,
              timestamp := now }]
         else st.energy_savings) := by
  unfold update_occupancy at h
  cases hf : st.rooms.find? (fun r => r.id == rid) with
  | none => rw [hf] at h; cases h
  | some r =>
    rw [hf] at h
    simp only [Bool.false_eq_true, if_false] at h
    cases h
    exact ⟨rfl, rfl, rfl⟩

/-- After an unoccupied report succeeds, every device of the room is off. -/
theorem update_occupancy_false_all_off (st : SystemState) (rid : Nat) (ts now : Time)
    (st' : SystemState) (h : update_occupancy st rid false ts now = Except.ok st') :
    ∀ d ∈ st'.devices, d.room_id = rid → d.is_on = false := by
  obtain ⟨-, hdev, -⟩ := update_occupancy_false_spec st rid ts now st' h
  rw [hdev]
  by_cases hnil : devicesOnInRoom rid st.devices = []
  · rw [hnil, List.foldl_nil]
    exact devicesOnInRoom_eq_nil_iff.1 hnil
  · rw [foldl_const_apply (turnOffOnDevicesInRoom rid now)
      (turnOff_idem rid now) _ _ hnil]
    exact mem_turnOff_room_off

/-- `roomSetOcc` is idempotent. -/
theorem roomSetOcc_idem (rid : Nat) (occ : Bool) (ts : Time) (r : Room) :
    roomSetOcc rid occ ts (roomSetOcc rid occ ts r) = roomSetOcc rid occ ts r := by
  by_cases hc : r.id = rid
  · simp [roomSetOcc, hc]
  · simp [roomSetOcc, hc]

/-- Evaluating `update_occupancy` on the three-device example. -/
theorem exTriple_update_eq :
    update_occupancy exTripleState 1 false 500 500 = Except.ok exTripleResult := by
  rw [update_occupancy]
  norm_num [exTripleState, exTripleResult, devicesOnInRoom, turnOffOnDevicesInRoom,
    deviceOffIfOn, roomSetOcc, List.find?, List.filter, List.foldl]

/-- Evaluating `update_occupancy` on the one-device example. -/
theorem exSingle_update_eq :
    update_occupancy exSingleState 1 false 500 500 = Except.ok exSingleResult := by
  rw [update_occupancy]
  norm_num [exSingleState, exSingleResult, devicesOnInRoom, turnOffOnDevicesInRoom,
    deviceOffIfOn, roomSetOcc, List.find?, List.filter, List.foldl]

/-- A second unoccupied report against the already-settled example state is
a no-op. -/
theorem exSingle_update_eq2 :
    update_occupancy exSingleResult 1 false 500 600 = Except.ok exSingleResult := by
  rw [update_occupancy]
  norm_num [exSingleResult, devicesOnInRoom, turnOffOnDevicesInRoom,
    deviceOffIfOn, roomSetOcc, List.find?, List.filter, List.foldl]

/-! ## Occupancy controller: device-off cascade (C1) -/

/-- C1 counterexample: in a room with on-devices [light A, fan B, light C],
`update_occupancy` (the reportOccupancy handler) turns off ALL of them —
light A does not stay on, contradicting the claimed first-light safety
exception. -/
theorem C1_counterexample :
    update_occupancy exTripleState 1 false 500 500 = Except.ok exTripleResult
    ∧ exTripleResult.devices.map Device.is_on = [false, false, false] := by
  exact ⟨exTriple_update_eq, rfl⟩

/-- C1 amended: on a reportOccupancy transition to unoccupied, every device
of the room is turned off, including every light; the handler has no
first-light exception (that exception exists only in the separate
simulate-occupancy endpoint, which spares the first listed device only when
it is itself a light). -/
theorem C1_unoccupied_all_devices_off (st : SystemState) (rid : Nat) (ts now : Time)
    (st' : SystemState) (h : update_occupancy st rid false ts now = Except.ok st') :
    ∀ d ∈ st'.devices, d.room_id = rid → d.is_on = false :=
  update_occupancy_false_all_off st rid ts now st' h

/-- C1 witness: the amended theorem applied to the concrete three-device
room; light A (the first light) ends up off. -/
theorem C1_witness :
    ({ id := 1, room_id := 1, name := "Light A", power_rating := 60,
       device_type := "light", is_on := false, last_state_change := 500 } : Device).is_on
      = false :=
  C1_unoccupied_all_devices_off exTripleState 1 500 500 exTripleResult
    exTriple_update_eq _ (List.mem_cons_self _ _) rfl

/-! ## Occupancy controller: savings ledger (C5) -/

/-- C5: with every power rating positive, a successful unoccupied report
appends exactly one EnergySaving record when at least one device was on
(and hence turned off), whose affected-device list is exactly the
turned-off devices and whose estimate is the sum of their
`power_rating / 1000`; it appends nothing when no device was on; and in
both cases the room is marked unoccupied with `last_seen` set to the event
timestamp. -/
theorem C5_savings_record (st : SystemState) (rid : Nat) (ts now : Time)
    (st' : SystemState)
    (hpow : ∀ d ∈ st.devices, 0 < d.power_rating)
    (h : update_occupancy st rid false ts now = Except.ok st') :
    (devicesOnInRoom rid st.devices ≠ [] →
      st'.energy_savings = st.energy_savings ++
        [{ room_id := rid,
           energy_saved :=
             ((devicesOnInRoom rid st.devices).map (fun d => d.power_rating / 1000)).sum,
           devices_affected := (devicesOnInRoom rid st.devices).map Device.id,
           timestamp := now }])
    ∧ (devicesOnInRoom rid st.devices = [] → st'.energy_savings = st.energy_savings)
    ∧ (∀ r ∈ st'.rooms, r.id = rid → r.is_occupied = false ∧ r.last_seen = some ts) := by
  obtain ⟨hrooms, -, hsav⟩ := update_occupancy_false_spec st rid ts now st' h
  refine ⟨?_, ?_, ?_⟩
  · intro hne
    have hpos :
        0 < ((devicesOnInRoom rid st.devices).map (fun d => d.power_rating / 1000)).sum := by
      apply List.sum_pos
      · intro x hx
        rcases List.mem_map.1 hx with ⟨d, hd, rfl⟩
        have hd' : d ∈ st.devices := List.mem_of_mem_filter hd
        have := hpow d hd'
        positivity
      · intro hmap
        exact hne (List.map_eq_nil_iff.1 hmap)
    rw [hsav, if_pos hpos]
  · intro hnil
    rw [hsav, hnil]
    simp
  · intro r hr hid
    rw [hrooms] at hr
    rcases List.mem_map.1 hr with ⟨r0, _, rfl⟩
    by_cases hc : r0.id = rid
    · simp [roomSetOcc, hc]
    · rw [roomSetOcc, if_neg hc] at hid ⊢
      exact absurd hid hc

/-- C5 witness: the theorem applied to a one-room, one-device concrete
state: the single 60 W on-device is turned off and one savings record of
60/1000 kWh is appended. -/
theorem C5_witness :
    exSingleResult.energy_savings = exSingleState.energy_savings ++
      [{ room_id := 1,
         energy_saved :=
           ((devicesOnInRoom 1 exSingleState.devices).map (fun d => d.power_rating / 1000)).sum,
         devices_affected := (devicesOnInRoom 1 exSingleState.devices).map Device.id,
         timestamp := 500 }] :=
  (C5_savings_record exSingleState 1 500 500 exSingleResult
      (by intro d hd
          simp only [exSingleState, List.mem_singleton] at hd
          subst hd
          norm_num)
      exSingle_update_eq).1
    (by simp [devicesOnInRoom, exSingleState, List.filter])

/-! ## Occupancy controller: idempotence of unoccupied reports (C9) -/

/-- C9: re-sending an identical unoccupied report leaves the state exactly
as after the first report — no second EnergySaving record, no device state
change, room fields rewritten with identical values — and the two calls
together append at most one savings record. -/
theorem C9_idempotent_reports (st st1 st2 : SystemState) (rid : Nat)
    (ts now1 now2 : Time)
    (h1 : update_occupancy st rid false ts now1 = Except.ok st1)
    (h2 : update_occupancy st1 rid false ts now2 = Except.ok st2) :
    st2 = st1 ∧ st1.energy_savings.length ≤ st.energy_savings.length + 1 := by
  obtain ⟨hr1, hd1, hs1⟩ := update_occupancy_false_spec st rid ts now1 st1 h1
  obtain ⟨hr2, hd2, hs2⟩ := update_occupancy_false_spec st1 rid ts now2 st2 h2
  have hall : ∀ d ∈ st1.devices, d.room_id = rid → d.is_on = false :=
    update_occupancy_false_all_off st rid ts now1 st1 h1
  have hnil : devicesOnInRoom rid st1.devices = [] := devicesOnInRoom_eq_nil_iff.2 hall
  constructor
  · have hdev : st2.devices = st1.devices := by
      rw [hd2, hnil, List.foldl_nil]
    have hsavs : st2.energy_savings = st1.energy_savings := by
      rw [hs2, hnil]
      simp
    have hroomseq : st2.rooms = st1.rooms := by
      have hcomp : roomSetOcc rid false ts ∘ roomSetOcc rid false ts
          = roomSetOcc rid false ts := funext (roomSetOcc_idem rid false ts)
      rw [hr2, hr1, List.map_map, hcomp]
    cases st1
    cases st2
    simp only at hdev hsavs hroomseq
    simp [hdev, hsavs, hroomseq]
  · rw [hs1]
    by_cases hc :
        0 < ((devicesOnInRoom rid st.devices).map (fun d => d.power_rating / 1000)).sum
    · rw [if_pos hc, List.length_append]
      simp
    · rw [if_neg hc]
      exact Nat.le_succ_of_le (Nat.le_refl _)

/-- C9 witness: the theorem applied to the concrete one-device room; the
second identical report returns the state unchanged and the ledger holds
one record in total. -/
theorem C9_witness :
    exSingleResult = exSingleResult
    ∧ exSingleResult.energy_savings.length ≤ exSingleState.energy_savings.length + 1 :=
  C9_idempotent_reports exSingleState exSingleResult exSingleResult 1 500 500 600
    exSingle_update_eq exSingle_update_eq2

/-! ## Device registry: state updates (C4) and missing ids (C8) -/

/-- C4 counterexample: a state change whose server time (50) is strictly
earlier than the device's current `last_state_change` (100) is not
dropped — the handler overwrites `last_state_change` backwards, so the
claimed monotonicity guard does not exist. -/
theorem C4_counterexample :
    (updateFirst 1 false 50 [exStale]).map Device.last_state_change = [50]
    ∧ ¬ (exStale.last_state_change ≤ 50) := by
  constructor
  · simp [updateFirst, exStale]
  · rw [exStale]
    norm_num

/-- C4 amended: `setDeviceState` carries no caller timestamp and has no
monotonicity guard: it unconditionally stamps the first matching device
with the requested `is_on` and the server wall-clock time of the call;
every device of the result is either an unchanged input device or the
freshly stamped one.  `last_state_change` is therefore non-decreasing only
as far as successive server call times are. -/
theorem C4_set_state_unconditional (devices : List Device) (did : Nat) (b : Bool)
    (now : Time) :
    ∀ d ∈ updateFirst did b now devices,
      d ∈ devices ∨ (d.id = did ∧ d.is_on = b ∧ d.last_state_change = now) := by
  induction devices with
  | nil => intro d hd; cases hd
  | cons x xs ih =>
    intro d hd
    by_cases hx : x.id = did
    · rw [updateFirst, if_pos hx] at hd
      rcases List.mem_cons.1 hd with rfl | hd
      · exact Or.inr ⟨hx, rfl, rfl⟩
      · exact Or.inl (List.mem_cons_of_mem _ hd)
    · rw [updateFirst, if_neg hx] at hd
      rcases List.mem_cons.1 hd with rfl | hd
      · exact Or.inl (List.mem_cons_self _ _)
      · rcases ih d hd with hd | hd
        · exact Or.inl (List.mem_cons_of_mem _ hd)
        · exact Or.inr hd

/-- C4 witness: the amended theorem applied to the stale-write example: the
overwritten device is stamped with the call time 50 and state off. -/
theorem C4_witness :
    ({ id := 1, room_id := 1, name := "Fan", power_rating := 60,
       device_type := "fan", is_on := false, last_state_change := 50 } : Device)
        ∈ [exStale]
    ∨ (({ id := 1, room_id := 1, name := "Fan", power_rating := 60,
          device_type := "fan", is_on := false, last_state_change := 50 } : Device).id = 1
       ∧ ({ id := 1, room_id := 1, name := "Fan", power_rating := 60,
            device_type := "fan", is_on := false, last_state_change := 50 } : Device).is_on
            = false
       ∧ ({ id := 1, room_id := 1, name := "Fan", power_rating := 60,
            device_type := "fan", is_on := false, last_state_change := 50 } : Device).last_state_change
            = 50) :=
  C4_set_state_unconditional [exStale] 1 false 50 _ (List.mem_cons_self _ _)

/-- The `update_one` of `update_device_state` leaves the collection
unchanged when no device carries the requested id. -/
theorem updateFirst_id_absent (did : Nat) (b : Bool) (now : Time) :
    ∀ (ds : List Device), (∀ d ∈ ds, d.id ≠ did) → updateFirst did b now ds = ds := by
  intro ds
  induction ds with
  | nil => intro _; rfl
  | cons x xs ih =>
    intro hds
    rw [updateFirst, if_neg (hds x (List.mem_cons_self _ _))]
    rw [ih (fun d hd => hds d (List.mem_cons_of_mem _ hd))]

/-- C8 counterexample: against an empty device store,
`update_device_state` reports success rather than failing with NotFound. -/
theorem C8_counterexample :
    update_device_state [] 1 true 0 = Except.ok ([], "Device state updated")
    ∧ update_device_state [] 1 true 0 ≠ Except.error ApiError.notFound := by
  refine ⟨rfl, ?_⟩
  intro h
  cases h

/-- C8 amended: an unknown room id makes `update_occupancy` fail with
NotFound, but `update_device_state` never surfaces NotFound: for a device
id absent from the store it reports success and leaves the store
unchanged. -/
theorem C8_not_found (st : SystemState) (rid did : Nat) (occ b : Bool)
    (ts now now2 : Time)
    (hroom : ∀ r ∈ st.rooms, r.id ≠ rid)
    (hdev : ∀ d ∈ st.devices, d.id ≠ did) :
    update_occupancy st rid occ ts now = Except.error ApiError.notFound
    ∧ update_device_state st.devices did b now2
        = Except.ok (st.devices, "Device state updated") := by
  constructor
  · have hfind : st.rooms.find? (fun r => r.id == rid) = none := by
      rw [List.find?_eq_none]
      intro r hr
      simp only [beq_iff_eq]
      exact hroom r hr
    rw [update_occupancy, hfind]
  · rw [update_device_state, updateFirst_id_absent did b now2 st.devices hdev]

/-- C8 witness: the amended theorem applied to an empty store. -/
theorem C8_witness :
    update_occupancy { rooms := [], devices := [], energy_savings := [] } 5 false 0 0
        = Except.error ApiError.notFound
    ∧ update_device_state
        (SystemState.devices { rooms := [], devices := [], energy_savings := [] }) 7 true 0
        = Except.ok
            (SystemState.devices { rooms := [], devices := [], energy_savings := [] },
             "Device state updated") :=
  C8_not_found { rooms := [], devices := [], energy_savings := [] } 5 7 false true 0 0 0
    (by intro r hr; cases hr) (by intro d hd; cases hd)

/-! ## Hourly integrator: one record per (device, hour) (C6) -/

/-- Every record of a run sequence carries the hour_start determined by
some run boundary of the sequence. -/
theorem mem_runsRecords_hour_start (devices : List Device) :
    ∀ (hs : List ℤ) (r : HourlyPowerLog), r ∈ runsRecords devices hs →
      ∃ h ∈ hs, r.hour_start = ((h : ℚ) - 1) * 3600 := by
  intro hs
  induction hs with
  | nil => intro r hr; cases hr
  | cons h t ih =>
    intro r hr
    rw [runsRecords] at hr
    rcases List.mem_append.1 hr with hr | hr
    · rcases List.mem_map.1 hr with ⟨d, _, rfl⟩
      exact ⟨h, List.mem_cons_self _ _, rfl⟩
    · rcases ih r hr with ⟨h', hh', he⟩
      exact ⟨h', List.mem_cons_of_mem _ hh', he⟩

/-- The map from a run boundary to its window start is injective. -/
theorem hour_start_inj {a b : ℤ}
    (hab : ((a : ℚ) - 1) * 3600 = ((b : ℚ) - 1) * 3600) : a = b := by
  have : (a : ℚ) = b := by linarith
  exact_mod_cast this

/-- C6: across integration runs fired once each at pairwise distinct
top-of-hour boundaries, and with pairwise distinct device ids, no two
written HourlyEnergyRecords of the same device share the same hour_start. -/
theorem C6_one_record_per_device_hour (devices : List Device) (runHours : List ℤ)
    (hruns : runHours.Nodup) (hids : (devices.map Device.id).Nodup) :
    (runsRecords devices runHours).Pairwise
      (fun r1 r2 => r1.device_id = r2.device_id → r1.hour_start ≠ r2.hour_start) := by
  induction runHours with
  | nil => exact List.Pairwise.nil
  | cons h t ih =>
    rw [runsRecords, List.pairwise_append]
    rcases List.nodup_cons.1 hruns with ⟨hnotmem, htnodup⟩
    refine ⟨?_, ih htnodup, ?_⟩
    · have hp : devices.Pairwise (fun d1 d2 => d1.id ≠ d2.id) :=
        (List.pairwise_map).1 hids
      exact (List.pairwise_map).2 (hp.imp (fun hne heq => absurd heq hne))
    · intro a ha b hb
      rcases List.mem_map.1 ha with ⟨d, _, rfl⟩
      rcases mem_runsRecords_hour_start devices t b hb with ⟨h', hh', hbe⟩
      intro _
      rw [hbe]
      have hne : h ≠ h' := fun e => hnotmem (e ▸ hh')
      exact fun e => hne (hour_start_inj e)

/-- C6 witness: the theorem applied to one device and two distinct run
boundaries. -/
theorem C6_witness :
    (runsRecords [exStale] [0, 1]).Pairwise
      (fun r1 r2 => r1.device_id = r2.device_id → r1.hour_start ≠ r2.hour_start) :=
  C6_one_record_per_device_hour [exStale] [0, 1] (by decide) (by decide)

/-! ## Aggregation service: hourly consumption response (C10) -/

/-- Every value of an updated association list satisfies `P` provided the
old values do, `f` preserves `P`, and the freshly created value satisfies
it. -/
theorem updateAList_forall {κ α : Type} [DecidableEq κ] (P : α → Prop)
    (k : κ) (init : α) (f : α → α)
    (hinit : P (f init)) (hf : ∀ v, P v → P (f v)) :
    ∀ (l : List (κ × α)), (∀ q ∈ l, P q.2) → ∀ q ∈ updateAList k init f l, P q.2 := by
  intro l
  induction l with
  | nil =>
    intro _ q hq
    rw [updateAList] at hq
    rcases List.mem_singleton.1 hq with rfl
    exact hinit
  | cons p rest ih =>
    intro hl q hq
    rw [updateAList] at hq
    by_cases hp : p.1 = k
    · rw [if_pos hp] at hq
      rcases List.mem_cons.1 hq with rfl | hq
      · exact hf p.2 (hl p (List.mem_cons_self _ _))
      · exact hl q (List.mem_cons_of_mem _ hq)
    · rw [if_neg hp] at hq
      rcases List.mem_cons.1 hq with rfl | hq
      · exact hl _ (List.mem_cons_self _ _)
      · exact ih (fun q hq => hl q (List.mem_cons_of_mem _ hq)) q hq

/-- Updating one entry whose measure grows by `e` (and creating it from a
zero-measure default when absent) grows the total measure of the
association list by `e`. -/
theorem updateAList_sum {κ α : Type} [DecidableEq κ] (g : α → ℚ) (e : ℚ)
    (k : κ) (init : α) (f : α → α)
    (hfg : ∀ v, g (f v) = g v + e) (hg0 : g init = 0) :
    ∀ (l : List (κ × α)),
      ((updateAList k init f l).map (fun q => g q.2)).sum
        = (l.map (fun q => g q.2)).sum + e := by
  intro l
  induction l with
  | nil => simp [updateAList, hfg, hg0]
  | cons p rest ih =>
    rw [updateAList]
    by_cases hp : p.1 = k
    · rw [if_pos hp]
      simp only [List.map_cons, List.sum_cons, hfg]
      ring
    · rw [if_neg hp]
      simp only [List.map_cons, List.sum_cons, ih]
      ring

/-- Folding one log into an hour accumulator preserves consistency. -/
theorem addLogToHour_consistent (rooms : List Room) (log : HourlyPowerLog)
    (hd : HourData) (h : hd.consistent) : (addLogToHour rooms log hd).consistent := by
  obtain ⟨htot, hrooms⟩ := h
  constructor
  · show hd.total_wh + log.energy_consumed_wh
        = ((updateAList log.room_id
            { room_name := roomNameOf rooms log.room_id, consumption_wh := 0, devices := [] }
            _ hd.rooms).map (fun q => q.2.consumption_wh)).sum
    rw [updateAList_sum (fun rd => rd.consumption_wh) log.energy_consumed_wh _ _ _
      (fun v => rfl) rfl hd.rooms, htot]
  · exact updateAList_forall RoomData.consistent _ _ _
      (by simp [RoomData.consistent])
      (fun v hv => by
        rw [RoomData.consistent] at hv
        simp [RoomData.consistent, hv])
      hd.rooms hrooms

/-- All hour accumulators produced by the grouping loop are consistent. -/
theorem foldl_processLog_consistent (rooms : List Room) :
    ∀ (logs : List HourlyPowerLog) (acc : List (Time × HourData)),
      (∀ q ∈ acc, q.2.consistent) →
      ∀ q ∈ logs.foldl (processLog rooms) acc, q.2.consistent := by
  intro logs
  induction logs with
  | nil => intro acc hacc; exact hacc
  | cons log rest ih =>
    intro acc hacc
    rw [List.foldl_cons]
    refine ih _ ?_
    exact updateAList_forall HourData.consistent _ _ _
      (addLogToHour_consistent rooms log { total_wh := 0, rooms := [] }
        ⟨by simp, by simp⟩)
      (fun v hv => addLogToHour_consistent rooms log v hv)
      acc hacc

/-- Members of an insertion are the inserted element or old members. -/
theorem mem_insertByKey (p q : Time × HourData) :
    ∀ l, q ∈ insertByKey p l → q = p ∨ q ∈ l := by
  intro l
  induction l with
  | nil =>
    intro h
    rcases List.mem_singleton.1 h with rfl
    exact Or.inl rfl
  | cons x rest ih =>
    intro h
    rw [insertByKey] at h
    by_cases hle : p.1 ≤ x.1
    · rw [if_pos hle] at h
      rcases List.mem_cons.1 h with rfl | h
      · exact Or.inl rfl
      · exact Or.inr h
    · rw [if_neg hle] at h
      rcases List.mem_cons.1 h with rfl | h
      · exact Or.inr (List.mem_cons_self _ _)
      · rcases ih h with h | h
        · exact Or.inl h
        · exact Or.inr (List.mem_cons_of_mem _ h)

/-- Members of the sorted grouping are members of the grouping. -/
theorem mem_sortByKey (q : Time × HourData) :
    ∀ l, q ∈ sortByKey l → q ∈ l := by
  intro l
  induction l with
  | nil => intro h; cases h
  | cons x rest ih =>
    intro h
    rcases mem_insertByKey x q _ h with rfl | h
    · exact List.mem_cons_self _ _
    · exact List.mem_cons_of_mem _ (ih h)

/-- Insertion preserves sortedness by key. -/
theorem sorted_insertByKey (p : Time × HourData) :
    ∀ l, l.Pairwise (fun a b : Time × HourData => a.1 ≤ b.1) →
      (insertByKey p l).Pairwise (fun a b => a.1 ≤ b.1) := by
  intro l
  induction l with
  | nil => intro _; exact List.pairwise_singleton _ _
  | cons x rest ih =>
    intro h
    rw [insertByKey]
    rcases List.pairwise_cons.1 h with ⟨hx, hrest⟩
    by_cases hle : p.1 ≤ x.1
    · rw [if_pos hle]
      refine List.pairwise_cons.2 ⟨?_, h⟩
      intro b hb
      rcases List.mem_cons.1 hb with rfl | hb
      · exact hle
      · exact le_trans hle (hx b hb)
    · rw [if_neg hle]
      refine List.pairwise_cons.2 ⟨?_, ih hrest⟩
      intro b hb
      rcases mem_insertByKey p b rest hb with rfl | hb
      · exact le_of_not_le hle
      · exact hx b hb

/-- The grouped hours come out of the sort in ascending key order. -/
theorem sorted_sortByKey :
    ∀ l, (sortByKey l).Pairwise (fun a b : Time × HourData => a.1 ≤ b.1) := by
  intro l
  induction l with
  | nil => exact List.Pairwise.nil
  | cons x rest ih => exact sorted_insertByKey x _ ih

/-- C10: every hourly-consumption response is internally consistent: each
hour total equals the sum over its room breakdown, each room total equals
the sum over its device lines, every kWh field is the matching Wh field
divided by 1000, the top-level total equals the sum of the hourly kWh
totals, and the hour entries are in ascending order of their hour key. -/
theorem C10_hourly_response_consistent (rooms : List Room)
    (logs : List HourlyPowerLog) (s e : Time) :
    (∀ he ∈ (get_hourly_consumption rooms logs s e).hourly_data,
        he.total_consumption_wh = (he.room_breakdown.map RoomBreakdown.consumption_wh).sum
        ∧ he.total_consumption_kwh = he.total_consumption_wh / 1000
        ∧ ∀ rb ∈ he.room_breakdown,
            rb.consumption_wh = (rb.devices.map DeviceEntry.consumption_wh).sum
            ∧ rb.consumption_kwh = rb.consumption_wh / 1000)
    ∧ (get_hourly_consumption rooms logs s e).total_consumption_kwh
        = ((get_hourly_consumption rooms logs s e).hourly_data.map
            HourEntry.total_consumption_kwh).sum
    ∧ (get_hourly_consumption rooms logs s e).hourly_data.Pairwise
        (fun a b => a.hour ≤ b.hour) := by
  refine ⟨?_, rfl, ?_⟩
  · intro he hhe
    have hhe' : he ∈ (sortByKey
        ((logs.filter (fun l => s ≤ l.hour_start && l.hour_start < e)).foldl
          (processLog rooms) [])).map mkHourEntry := hhe
    rcases List.mem_map.1 hhe' with ⟨q, hq, rfl⟩
    have hq' : q.2.consistent :=
      foldl_processLog_consistent rooms _ [] (fun _ h => absurd h (List.not_mem_nil _))
        q (mem_sortByKey q _ hq)
    obtain ⟨htot, hrooms⟩ := hq'
    refine ⟨?_, rfl, ?_⟩
    · show q.2.total_wh = ((q.2.rooms.map mkRoomBreakdown).map RoomBreakdown.consumption_wh).sum
      rw [List.map_map]
      exact htot
    · intro rb hrb
      rcases List.mem_map.1 hrb with ⟨p, hp, rfl⟩
      exact ⟨hrooms p hp, rfl⟩
  · have hs := sorted_sortByKey
      ((logs.filter (fun l => s ≤ l.hour_start && l.hour_start < e)).foldl
        (processLog rooms) [])
    exact List.pairwise_map.2 (hs.imp (fun h => h))

end SmartEnergy
